import Mathlib

/-
A shallow embedding of the peer control plane of the bus1 kernel module
(src/ipc/bus1/peer.c): peer lifecycle, connect/reset/query dispatch, name
resolution, send, receive and teardown, together with theorems about these
operations. External collaborators that are not part of the sources
(active.c, queue.c, pool.c, message.c, user.c, the uapi header) are
modelled from the specification where noted.
-/

namespace Bus1

/-- Error returns of the peer control plane. Each constructor stands for one
negative errno value returned in `src/ipc/bus1/peer.c`: InvalidArg = -EINVAL,
NotPermitted = -EPERM, AlreadyShutDown = -ESHUTDOWN, AlreadyConnected =
-EISCONN, NotConnected = -ENOTCONN, NameExists = -EISNAM, RemoteChanged =
-EREMCHG, MsgTooBig = -EMSGSIZE, NotFound = -ENXIO, WouldBlock = -EAGAIN,
Fault = -EFAULT, OutOfMemory = -ENOMEM. -/
inductive Err where
  | InvalidArg
  | NotPermitted
  | AlreadyShutDown
  | AlreadyConnected
  | NotConnected
  | NameExists
  | RemoteChanged
  | MsgTooBig
  | NotFound
  | WouldBlock
  | Fault
  | OutOfMemory
  deriving DecidableEq, Repr

/-- Modelled from the spec: the host kernel's `PAGE_SIZE` (not part of the
sources); the pool size must be a positive multiple of it. -/
def PAGE_SIZE : Nat := 4096

/-- Modelled from the spec: `BUS1_NAME_MAX_SIZE` from `uapi/linux/bus1.h`
(not part of the sources); the spec gives a typical bound of 256 bytes. -/
def BUS1_NAME_MAX_SIZE : Nat := 256

/-- Modelled from the spec: `BUS1_OFFSET_INVALID` from `uapi/linux/bus1.h`
(not part of the sources), the all-ones u64 marker for an invalid offset. -/
def BUS1_OFFSET_INVALID : Nat := 18446744073709551615

/-- Modelled from the spec: `BUS1_VEC_MAX` from `uapi/linux/bus1.h`. -/
def BUS1_VEC_MAX : Nat := 512

/-- Modelled from the spec: `BUS1_FD_MAX` from `uapi/linux/bus1.h`. -/
def BUS1_FD_MAX : Nat := 256

/-- Modelled from the spec: the `BUS1_CONNECT_FLAG_PEER` bit. -/
def BUS1_CONNECT_FLAG_PEER : Nat := 1

/-- Modelled from the spec: the `BUS1_CONNECT_FLAG_MONITOR` bit. -/
def BUS1_CONNECT_FLAG_MONITOR : Nat := 2

/-- Modelled from the spec: the `BUS1_CONNECT_FLAG_QUERY` bit. -/
def BUS1_CONNECT_FLAG_QUERY : Nat := 4

/-- Modelled from the spec: the `BUS1_CONNECT_FLAG_RESET` bit. -/
def BUS1_CONNECT_FLAG_RESET : Nat := 8

/-- Modelled from the spec: the `BUS1_RECV_FLAG_PEEK` bit. -/
def BUS1_RECV_FLAG_PEEK : Nat := 1

/-- A peer name: the bytes of a C string, without the terminating zero. -/
abbrev Name := List Nat

/-- Length of the longest zero-free byte sequence at the head of `s`, looking
at most `maxlen` bytes ahead, as computed by the C `strnlen`. -/
def strnlen (s : List Nat) (maxlen : Nat) : Nat :=
  ((s.take maxlen).takeWhile (fun b => b != 0)).length

/-- Modelled from the spec: the state machine of the ActiveRef primitive
(`bus1_active`, file active.c is not part of the sources); lifecycle
NEW → ACTIVE → DEACTIVATING → DEAD. -/
inductive ActiveState where
  | stNew
  | stActive
  | stDeactivating
  | stDead
  deriving DecidableEq, Repr

/-- Modelled from the spec: `bus1_active_is_new`. -/
def bus1_active_is_new (a : ActiveState) : Bool := a = ActiveState.stNew

/-- Modelled from the spec: `bus1_active_is_active`. -/
def bus1_active_is_active (a : ActiveState) : Bool := a = ActiveState.stActive

/-- Modelled from the spec: `bus1_active_is_deactivated`. -/
def bus1_active_is_deactivated (a : ActiveState) : Bool :=
  a = ActiveState.stDeactivating || a = ActiveState.stDead

/-- Modelled from the spec: `bus1_active_deactivate`, ACTIVE → DEACTIVATING,
idempotent. -/
def bus1_active_deactivate (a : ActiveState) : ActiveState :=
  if a = ActiveState.stActive then ActiveState.stDeactivating else a

/-- Modelled from the spec: `bus1_active_activate`, NEW → ACTIVE. -/
def bus1_active_activate (a : ActiveState) : ActiveState :=
  if a = ActiveState.stNew then ActiveState.stActive else a

/-- Modelled from the spec: `bus1_active_cleanup` transitions to DEAD and
reports `true` exactly on the first cleanup; later calls report `false`. -/
def bus1_active_cleanup (a : ActiveState) : ActiveState × Bool :=
  if a = ActiveState.stDead then (ActiveState.stDead, false)
  else (ActiveState.stDead, true)

/-- A pool slice: offset/size pair published to user space. -/
structure Slice where
  offset : Nat
  size : Nat
  deriving DecidableEq, Repr

/-- A queued message node (`struct bus1_message` with its `qnode`): its pool
slice, attached-fd count, and whether the node is committed or still staged. -/
structure Message where
  id : Nat
  slice : Slice
  n_files : Nat
  committed : Bool
  deriving DecidableEq, Repr

/-- The peer's pool: total size and the currently allocated slices. -/
structure Pool where
  size : Nat
  slices : List Slice
  deriving DecidableEq, Repr

/-- Mutable per-peer state (`struct bus1_peer_info`): pool, queue of message
nodes (the queue's rbtree index), the post-flush marker, and the user binding. -/
structure PeerInfo where
  pool : Pool
  queue : List Message
  queueFlushed : Bool
  user : Option Nat
  deriving DecidableEq, Repr

/-- The domain registry state consumed by peer.c: the ordered name index
(each entry a name with its owning peer's id), the peer list and counters. -/
structure Domain where
  map_names : List (Name × Nat)
  n_names : Nat
  list_peers : List Nat
  n_peers : Nat
  deriving DecidableEq, Repr

/-- The outer peer handle (`struct bus1_peer`): active-ref state, replaceable
info pointer, and the private list of owned names (head = last inserted). -/
structure Peer where
  id : Nat
  active : ActiveState
  info : Option PeerInfo
  names : List Name
  deriving DecidableEq, Repr

/-- The CONNECT parameter block (`struct bus1_cmd_connect`): flags, pool size
and the trailing name blob (whose length is `size - sizeof(param)`). -/
structure ConnectParam where
  flags : Nat
  pool_size : Nat
  names : List Nat
  deriving DecidableEq, Repr

/-- The RESOLVE parameter block (`struct bus1_cmd_resolve`): flags, the id
result field, and the name bytes including the terminating zero. -/
structure ResolveParam where
  flags : Nat
  id : Nat
  name : List Nat
  deriving DecidableEq, Repr

/-- The RECV parameter block (`struct bus1_cmd_recv`). -/
structure RecvParam where
  flags : Nat
  msg_offset : Nat
  msg_size : Nat
  msg_ids : Nat
  msg_fds : Nat
  deriving DecidableEq, Repr

/-- What RECV reports back to user space, plus the number of file descriptors
actually installed into the caller's fd table. -/
structure RecvOut where
  msg_offset : Nat
  msg_size : Nat
  msg_ids : Nat
  msg_fds : Nat
  installedFds : Nat
  deriving DecidableEq, Repr

/-- The SEND parameter block (`struct bus1_cmd_send`). -/
structure SendParam where
  flags : Nat
  n_vecs : Nat
  n_fds : Nat
  n_destinations : Nat
  ptr_destinations : Nat
  ptr_vecs : Nat
  ptr_ids : Nat
  ptr_fds : Nat
  deriving DecidableEq, Repr

/-- Observable transaction-engine events of one SEND call. -/
inductive SendEv where
  | instantiatedEv (dest : Nat)
  | committedForIdEv (dest : Nat)
  | committedEv
  | freedEv
  deriving DecidableEq, Repr

/-- Environment of one SEND call: the address width of `unsigned long`, the
user-memory reads of destination ids (`none` is a fault), and the outcomes of
the transaction-engine operations (transaction.c is not part of the sources). -/
structure SendEnv where
  ulongBits : Nat
  readDest : Nat → Option Nat
  newOk : Except Err Unit
  commitForId : Nat → Except Err Unit
  instantiateForId : Nat → Except Err Unit

/-- Observable events of one `bus1_peer_info_reset` run. -/
inductive ResetEv where
  | lockEv
  | unlockEv
  | unlinkEv (id : Nat)
  | deallocEv (id : Nat)
  | freeEv (id : Nat)
  | queuePostFlushEv
  | poolFlushEv
  deriving DecidableEq, Repr

/-- The two teardown entry points of a peer. -/
inductive TdOp where
  | td
  | tdDom
  deriving DecidableEq, Repr

/-- Remove the first occurrence of `x` from a list, if any. -/
def eraseFirst {α : Type} [DecidableEq α] (x : α) : List α → List α
  | [] => []
  | y :: rest => if y = x then rest else y :: eraseFirst x rest

/-- Walk of `bus1_peer_name_check` over the peer's name list: `acc` is the
running count (`n_names`); a hit on the last list entry reports the total
count, a hit elsewhere reports 0, no hit is `-EREMCHG`. -/
def nameCheckGo (target : Name) : Nat → List Name → Except Err Nat
  | _, [] => .error .RemoteChanged
  | acc, n :: rest =>
    if target = n then (if rest = [] then .ok (acc + 1) else .ok 0)
    else nameCheckGo target (acc + 1) rest

/-- Check if the string is a name of the peer (`bus1_peer_name_check`). -/
def bus1_peer_name_check (peerNames : List Name) (name : Name) : Except Err Nat :=
  nameCheckGo name 0 peerNames

/-- Loop body of `bus1_peer_names_check`, fuelled by the blob length (each
iteration consumes at least two bytes, so the fuel never runs out). -/
def namesCheckGo (peerNames : List Name) (fuel : Nat) (blob : List Nat)
    (nNames nNamesOld : Nat) : Except Err Unit :=
  if blob = [] then (if nNames = nNamesOld then .ok () else .error .RemoteChanged)
  else
    match fuel with
    | 0 => .error .MsgTooBig
    | fuel' + 1 =>
      let n := strnlen blob blob.length
      if n = 0 ∨ n = blob.length then .error .MsgTooBig
      else
        match bus1_peer_name_check peerNames (blob.take n) with
        | .error e => .error e
        | .ok r =>
          namesCheckGo peerNames fuel' (blob.drop (n + 1)) (nNames + 1)
            (if 0 < r then r else nNamesOld)

/-- Check if a nulstr contains exactly the names of the peer
(`bus1_peer_names_check`). -/
def bus1_peer_names_check (peerNames : List Name) (blob : List Nat) : Except Err Unit :=
  if blob = [] ∧ peerNames ≠ [] then .error .RemoteChanged
  else namesCheckGo peerNames blob.length blob 0 0

/-- Name-blob parsing and `bus1_peer_name_new` allocation loop of
`bus1_peer_connect_new`, building the peer's name list head-first (the head is
the last name of the blob), fuelled by the blob length. -/
def buildNamesGo (fuel : Nat) (blob : List Nat) (acc : List Name) : Except Err (List Name) :=
  if blob = [] then .ok acc
  else
    match fuel with
    | 0 => .error .MsgTooBig
    | fuel' + 1 =>
      let n := strnlen blob blob.length
      if n = 0 ∨ n = blob.length then .error .MsgTooBig
      else if n + 1 < 2 ∨ BUS1_NAME_MAX_SIZE < n + 1 then .error .MsgTooBig
      else buildNamesGo fuel' (blob.drop (n + 1)) (blob.take n :: acc)

/-- Parse the trailing name blob of a CONNECT into the peer's name list. -/
def buildNames (blob : List Nat) (acc : List Name) : Except Err (List Name) :=
  buildNamesGo blob.length blob acc

/-- Plain nulstr parse, fuelled by the blob length: the encoded names in blob
order. Used to state claims about the supplied name list. -/
def parseNamesGo (fuel : Nat) (blob : List Nat) : Except Err (List Name) :=
  if blob = [] then .ok []
  else
    match fuel with
    | 0 => .error .MsgTooBig
    | fuel' + 1 =>
      let n := strnlen blob blob.length
      if n = 0 ∨ n = blob.length then .error .MsgTooBig
      else
        match parseNamesGo fuel' (blob.drop (n + 1)) with
        | .error e => .error e
        | .ok rest => .ok (blob.take n :: rest)

/-- The list of zero-terminated names a blob encodes, in order. -/
def parseNames (blob : List Nat) : Except Err (List Name) :=
  parseNamesGo blob.length blob

/-- Follows the claim's words: two name lists describe the same name set
(each name of one occurs in the other). -/
def specNameSetEq (xs ys : List Name) : Bool :=
  xs.all (fun n => ys.contains n) && ys.all (fun n => xs.contains n)

/-- Insert one peer name into the domain's ordered name index
(`bus1_peer_name_add`): `-EISNAM` if the name is already present, otherwise
link the entry and bump `n_names`. -/
def bus1_peer_name_add (pn : Name × Nat) (dom : Domain) : Except Err Domain :=
  if ∃ e ∈ dom.map_names, e.1 = pn.1 then .error .NameExists
  else .ok { dom with map_names := pn :: dom.map_names, n_names := dom.n_names + 1 }

/-- Detach one peer-name node from the domain index (`bus1_peer_name_remove`);
a node that is not linked (`RB_EMPTY_NODE`) is left alone. -/
def bus1_peer_name_remove (pn : Name × Nat) (dom : Domain) : Domain :=
  if pn ∈ dom.map_names then
    { dom with map_names := eraseFirst pn dom.map_names, n_names := dom.n_names - 1 }
  else dom

/-- The insertion loop of `bus1_peer_connect_new` over the candidate names:
resulting domain, the sub-list of candidates actually linked (the nodes whose
`rb` is non-empty, in candidate order), and the error that stopped the loop. -/
def insertNames (pid : Nat) : List Name → Domain → Domain × List Name × Option Err
  | [], dom => (dom, [], none)
  | c :: rest, dom =>
    match bus1_peer_name_add (c, pid) dom with
    | .error e => (dom, [], some e)
    | .ok dom' =>
      let r := insertNames pid rest dom'
      (r.1, c :: r.2.1, r.2.2)

/-- Iterate `bus1_peer_name_remove` over a list of names of one peer. -/
def removeNames (pid : Nat) (l : List Name) (dom : Domain) : Domain :=
  l.foldl (fun d n => bus1_peer_name_remove (n, pid) d) dom

/-- Modelled from the spec: `bus1_user_acquire_by_uid` (user.c is not part of
the sources) pins a user object for the caller's uid. -/
def bus1_user_acquire_by_uid (uid : Nat) : Option Nat := some uid

/-- Modelled from the spec: `bus1_user_release` (user.c is not part of the
sources) drops the binding. -/
def bus1_user_release : Option Nat → Option Nat := fun _ => none

/-- Modelled from the spec: `bus1_message_deallocate_locked` (message.c is not
part of the sources) releases the message's pool slice. -/
def bus1_message_deallocate_locked (m : Message) (p : Pool) : Pool :=
  { p with slices := eraseFirst m.slice p.slices }

/-- Modelled from the spec: `bus1_queue_post_flush` (queue.c is not part of the
sources) clears the queue index and publishes the flush marker. -/
def bus1_queue_post_flush (_ : List Message) : List Message × Bool :=
  ([], true)

/-- Modelled from the spec: `bus1_pool_flush` (pool.c is not part of the
sources) releases all slices. -/
def bus1_pool_flush (p : Pool) : Pool := { p with slices := [] }

/-- Modelled from the spec: `bus1_queue_peek` / `bus1_queue_peek_rcu` (queue.c
is not part of the sources) return the first committed entry of the queue;
staged nodes are not visible to receivers. -/
def bus1_queue_peek (q : List Message) : Option Message :=
  q.find? (fun m => m.committed)

/-- Modelled from the spec: `bus1_pool_publish` (pool.c is not part of the
sources) publishes a slice to user space, reporting its offset and size. -/
def bus1_pool_publish (_ : Pool) (s : Slice) : Nat × Nat := (s.offset, s.size)

/-- Allocate a fresh `bus1_peer_info` (`bus1_peer_info_new`): reject a zero or
non-page-aligned pool size, otherwise create an empty pool/queue. -/
def bus1_peer_info_new (param : ConnectParam) : Except Err PeerInfo :=
  if param.pool_size = 0 ∨ param.pool_size % PAGE_SIZE ≠ 0 then .error .InvalidArg
  else .ok { pool := { size := param.pool_size, slices := [] },
             queue := [], queueFlushed := false, user := none }

/-- Per-node events of the `bus1_peer_info_reset` queue walk: every node is
unlinked (`RB_CLEAR_NODE`); a committed node is additionally deallocated and
freed. -/
def resetNodeEvents (m : Message) : List ResetEv :=
  ResetEv.unlinkEv m.id ::
    (if m.committed then [ResetEv.deallocEv m.id, ResetEv.freeEv m.id] else [])

/-- Flush a peer's info (`bus1_peer_info_reset`): under the info mutex, walk
every queued node, unlink it, deallocate and free it when committed; then
post-flush the queue and flush the pool. The second component is the event
trace of the run. -/
def bus1_peer_info_reset (pi : PeerInfo) : PeerInfo × List ResetEv :=
  let pool1 := pi.queue.foldl
    (fun p m => if m.committed then bus1_message_deallocate_locked m p else p) pi.pool
  let q2 := bus1_queue_post_flush pi.queue
  let pool2 := bus1_pool_flush pool1
  ({ pi with queue := q2.1, queueFlushed := q2.2, pool := pool2 },
   ResetEv.lockEv ::
     (pi.queue.flatMap resetNodeEvents ++
      [ResetEv.queuePostFlushEv, ResetEv.poolFlushEv, ResetEv.unlockEv]))

/-- Fresh or repeated connect of a peer (`bus1_peer_connect_new`). On an
already-connected peer: `-EREMCHG` on a pool-size mismatch, the name-check
error on a name mismatch, `-EISCONN` when everything matches. On a NEW peer:
validate the pool size, pin the user, build the candidate names, insert them
into the domain index, and on a collision remove the linked candidates again
and unwind; on success activate the peer and link it into the domain. -/
def bus1_peer_connect_new (peer : Peer) (dom : Domain) (uid : Nat)
    (param : ConnectParam) : Except Err Unit × Peer × Domain :=
  if !bus1_active_is_new peer.active then
    match peer.info with
    | none => (.error .AlreadyShutDown, peer, dom)
    | some pi =>
      if param.pool_size ≠ pi.pool.size then (.error .RemoteChanged, peer, dom)
      else
        match bus1_peer_names_check peer.names param.names with
        | .error e => (.error e, peer, dom)
        | .ok _ => (.error .AlreadyConnected, peer, dom)
  else if peer.info ≠ none then (.error .AlreadyConnected, peer, dom)
  else
    match bus1_peer_info_new param with
    | .error e => (.error e, peer, dom)
    | .ok pi0 =>
      let pi := { pi0 with user := bus1_user_acquire_by_uid uid }
      match buildNames param.names [] with
      | .error e => (.error e, peer, dom)
      | .ok cands =>
        let r := insertNames peer.id cands dom
        match r.2.2 with
        | some e => (.error e, peer, removeNames peer.id r.2.1 r.1)
        | none =>
          (.ok (),
           { peer with names := cands, info := some pi,
                       active := bus1_active_activate peer.active },
           { r.1 with list_peers := peer.id :: r.1.list_peers,
                      n_peers := r.1.n_peers + 1 })

/-- Reset of a connected peer (`bus1_peer_connect_reset`): `-ENOTCONN` on a
NEW peer, `-EINVAL` when a pool size is supplied or trailing bytes are
present, otherwise report the current pool size and flush the info. The first
component carries the `pool_size` written back into the parameter block. -/
def bus1_peer_connect_reset (peer : Peer) (param : ConnectParam) :
    Except Err Nat × Peer :=
  if bus1_active_is_new peer.active then (.error .NotConnected, peer)
  else if param.pool_size ≠ 0 ∨ param.names ≠ [] then (.error .InvalidArg, peer)
  else
    match peer.info with
    | none => (.error .AlreadyShutDown, peer)
    | some pi =>
      (.ok pi.pool.size, { peer with info := some (bus1_peer_info_reset pi).1 })

/-- Query of a connected peer (`bus1_peer_connect_query`): `-ENOTCONN` on a
NEW peer, otherwise report the current pool size. -/
def bus1_peer_connect_query (peer : Peer) : Except Err Nat :=
  if bus1_active_is_new peer.active then .error .NotConnected
  else
    match peer.info with
    | none => .error .AlreadyShutDown
    | some pi => .ok pi.pool.size

/-- Number of mode flags set among PEER, MONITOR and RESET. -/
def connectModeCount (flags : Nat) : Nat :=
  (if flags &&& BUS1_CONNECT_FLAG_PEER ≠ 0 then 1 else 0) +
  (if flags &&& BUS1_CONNECT_FLAG_MONITOR ≠ 0 then 1 else 0) +
  (if flags &&& BUS1_CONNECT_FLAG_RESET ≠ 0 then 1 else 0)

/-- The CONNECT dispatcher (`bus1_peer_ioctl_connect`): reject unknown flag
bits (any bit above RESET, that is `flags ≥ 16`) and multiple modes, then the
capability check, then dispatch under the peer write-lock; on success of a
QUERY-carrying call the pool size is copied back to user space (the
`some`-value of the result). -/
def bus1_peer_ioctl_connect (peer : Peer) (dom : Domain) (hasCap : Bool)
    (uid : Nat) (param : ConnectParam) : Except Err (Option Nat) × Peer × Domain :=
  if 16 ≤ param.flags then (.error .InvalidArg, peer, dom)
  else if 1 < connectModeCount param.flags then (.error .InvalidArg, peer, dom)
  else if !hasCap then (.error .NotPermitted, peer, dom)
  else
    let step : Except Err Nat × Peer × Domain :=
      if bus1_active_is_deactivated peer.active then (.error .AlreadyShutDown, peer, dom)
      else if param.flags &&& (BUS1_CONNECT_FLAG_PEER ||| BUS1_CONNECT_FLAG_MONITOR) ≠ 0 then
        match bus1_peer_connect_new peer dom uid param with
        | (.error e, p', d') => (.error e, p', d')
        | (.ok _, p', d') => (.ok param.pool_size, p', d')
      else if param.flags &&& BUS1_CONNECT_FLAG_RESET ≠ 0 then
        match bus1_peer_connect_reset peer param with
        | (res, p') => (res, p', dom)
      else if param.flags &&& BUS1_CONNECT_FLAG_QUERY ≠ 0 then
        (bus1_peer_connect_query peer, peer, dom)
      else (.error .InvalidArg, peer, dom)
    match step with
    | (.error e, p', d') => (.error e, p', d')
    | (.ok psz, p', d') =>
      if param.flags &&& BUS1_CONNECT_FLAG_QUERY ≠ 0 then (.ok (some psz), p', d')
      else (.ok none, p', d')

/-- Name resolution (`bus1_peer_ioctl_resolve`): validate flags, the cleared
id field and the name bytes, then walk the domain's name index; a hit ends the
walk and reports success with the (placeholder) id, a miss is `-ENXIO`.
`activeOf` looks up the active-ref state of a peer id. -/
def bus1_peer_ioctl_resolve (dom : Domain) (activeOf : Nat → ActiveState)
    (param : ResolveParam) : Except Err Nat :=
  if param.flags ≠ 0 then .error .InvalidArg
  else if param.id ≠ 0 then .error .InvalidArg
  else if param.name.length < 2 ∨ BUS1_NAME_MAX_SIZE < param.name.length then .error .NotFound
  else if param.name.getLast? ≠ some 0 then .error .InvalidArg
  else
    match dom.map_names.find? (fun e => e.1 = param.name.dropLast) with
    | none => .error .NotFound
    | some e =>
      .ok (if bus1_active_is_active (activeOf e.2) then 0 else param.id)

/-- Receive (`bus1_peer_ioctl_recv`): validate flags and the pre-cleared
output fields, peek at the first committed message (`-EAGAIN` if none); with
PEEK publish the slice and report the fd count without dequeuing or
installing fds; otherwise dequeue, publish, deallocate the slice and install
the message's fds (fd pre-allocation and the pool write never fail in this
sequential model). -/
def bus1_peer_ioctl_recv (pi : PeerInfo) (param : RecvParam) :
    Except Err RecvOut × PeerInfo :=
  if 2 ≤ param.flags then (.error .InvalidArg, pi)
  else if param.msg_offset ≠ BUS1_OFFSET_INVALID ∨ param.msg_size ≠ 0 ∨
          param.msg_ids ≠ 0 ∨ param.msg_fds ≠ 0 then
    (.error .InvalidArg, pi)
  else
    match bus1_queue_peek pi.queue with
    | none => (.error .WouldBlock, pi)
    | some msg =>
      if param.flags &&& BUS1_RECV_FLAG_PEEK ≠ 0 then
        let pub := bus1_pool_publish pi.pool msg.slice
        (.ok { msg_offset := pub.1, msg_size := pub.2, msg_ids := param.msg_ids,
               msg_fds := msg.n_files, installedFds := 0 }, pi)
      else
        let pub := bus1_pool_publish pi.pool msg.slice
        (.ok { msg_offset := pub.1, msg_size := pub.2, msg_ids := param.msg_ids,
               msg_fds := msg.n_files, installedFds := msg.n_files },
         { pi with queue := eraseFirst msg pi.queue,
                   pool := bus1_message_deallocate_locked msg pi.pool })

/-- Whether a transaction event commits a message to a destination queue. -/
def isCommitEv : SendEv → Bool
  | SendEv.committedEv => true
  | SendEv.committedForIdEv _ => true
  | _ => false

/-- The multicast destination loop of `bus1_peer_ioctl_send`: read each
destination id from user space (a fault is fatal) and instantiate the
transaction for it. -/
def sendMulticastLoop (env : SendEnv) : Nat → Nat → Except Err Unit × List SendEv
  | _, 0 => (.ok (), [])
  | i, remaining + 1 =>
    match env.readDest i with
    | none => (.error .Fault, [])
    | some d =>
      match env.instantiateForId d with
      | .error e => (.error e, [])
      | .ok _ =>
        let rest := sendMulticastLoop env (i + 1) remaining
        (rest.1, SendEv.instantiatedEv d :: rest.2)

/-- Whether a u64 value survives the cast through `unsigned long` unchanged. -/
def truncOk (bits x : Nat) : Bool := x % 2 ^ bits = x

/-- Send (`bus1_peer_ioctl_send`): validate flags, the vec/fd limits and the
pointer widths, build the transaction, then either the unicast fast path
(read one destination, commit for it) or the multicast slow path (instantiate
each destination, then commit); the transaction is freed on every exit after
its construction. -/
def bus1_peer_ioctl_send (env : SendEnv) (param : SendParam) :
    Except Err Unit × List SendEv :=
  if 4 ≤ param.flags then (.error .InvalidArg, [])
  else if BUS1_VEC_MAX < param.n_vecs ∨ BUS1_FD_MAX < param.n_fds then
    (.error .MsgTooBig, [])
  else if !(truncOk env.ulongBits param.ptr_destinations &&
            truncOk env.ulongBits param.ptr_vecs &&
            truncOk env.ulongBits param.ptr_ids &&
            truncOk env.ulongBits param.ptr_fds) then
    (.error .Fault, [])
  else
    match env.newOk with
    | .error e => (.error e, [])
    | .ok _ =>
      if param.n_destinations = 1 then
        match env.readDest 0 with
        | none => (.error .Fault, [SendEv.freedEv])
        | some d =>
          match env.commitForId d with
          | .error e => (.error e, [SendEv.freedEv])
          | .ok _ => (.ok (), [SendEv.committedForIdEv d, SendEv.freedEv])
      else
        let r := sendMulticastLoop env 0 param.n_destinations
        match r.1 with
        | .error e => (.error e, r.2 ++ [SendEv.freedEv])
        | .ok _ => (.ok (), r.2 ++ [SendEv.committedEv, SendEv.freedEv])

/-- The once-only cleanup callback (`bus1_peer_cleanup`): with the info still
present, remove every peer name from the domain index and the peer's list,
release the user binding, and unlink the peer from the domain's peer list. -/
def bus1_peer_cleanup (peer : Peer) (dom : Domain) : Peer × Domain :=
  match peer.info with
  | none => (peer, dom)
  | some pi =>
    let dom' := removeNames peer.id peer.names dom
    ({ peer with names := [], info := some { pi with user := bus1_user_release pi.user } },
     { dom' with list_peers := eraseFirst peer.id dom'.list_peers,
                 n_peers := dom'.n_peers - 1 })

/-- Peer teardown (`bus1_peer_teardown`): deactivate and drain the active-ref,
then run the once-only cleanup; if this call was the first cleanup, capture
the info, null it on the peer and free it, else report `-ESHUTDOWN`. -/
def bus1_peer_teardown (peer : Peer) (dom : Domain) :
    (Peer × Domain) × Except Err Unit :=
  let a1 := bus1_active_deactivate peer.active
  let c := bus1_active_cleanup a1
  if c.2 then
    let pd := bus1_peer_cleanup { peer with active := c.1 } dom
    (({ pd.1 with info := none }, pd.2), .ok ())
  else
    (({ peer with active := c.1 }, dom), .error .AlreadyShutDown)

/-- Domain-assisted peer teardown (`bus1_peer_teardown_domain`): run the
once-only cleanup and free the info if this call was the first; otherwise a
no-op. -/
def bus1_peer_teardown_domain (peer : Peer) (dom : Domain) : Peer × Domain :=
  let c := bus1_active_cleanup peer.active
  if c.2 then
    let pd := bus1_peer_cleanup { peer with active := c.1 } dom
    ({ pd.1 with info := none }, pd.2)
  else
    ({ peer with active := c.1 }, dom)

/-- One teardown call on a peer/domain state; the second component counts
whether this call's cleanup fired. -/
def tdStep (s : Peer × Domain) : TdOp → (Peer × Domain) × Nat
  | TdOp.td =>
    match bus1_peer_teardown s.1 s.2 with
    | (s', .ok _) => (s', 1)
    | (s', .error _) => (s', 0)
  | TdOp.tdDom =>
    (bus1_peer_teardown_domain s.1 s.2,
     if (bus1_active_cleanup s.1.active).2 then 1 else 0)

/-- Run a sequence of teardown calls, summing the fired cleanups. -/
def tdRun : (Peer × Domain) → List TdOp → (Peer × Domain) × Nat
  | s, [] => (s, 0)
  | s, op :: rest =>
    let r := tdStep s op
    let r2 := tdRun r.1 rest
    (r2.1, r.2 + r2.2)

/-- Domain of the collision witness: peer 1 already owns the name "dup". -/
def c3DomW : Domain :=
  { map_names := [([100, 117, 112], 1)], n_names := 1, list_peers := [1], n_peers := 1 }

/-- Peer of the collision witness: a fresh, NEW peer. -/
def c3PeerW : Peer := { id := 2, active := ActiveState.stNew, info := none, names := [] }

/-- CONNECT(PEER) parameters of the collision witness, claiming "dup". -/
def c3ParamW : ConnectParam := { flags := 1, pool_size := 4096, names := [100, 117, 112, 0] }

/-- State of the teardown witness: an activated peer holding one name. -/
def c4StateW : Peer × Domain :=
  ({ id := 3, active := ActiveState.stActive,
     info := some { pool := { size := 4096, slices := [] }, queue := [],
                    queueFlushed := false, user := some 9 },
     names := [[120]] },
   { map_names := [([120], 3)], n_names := 1, list_peers := [3], n_peers := 1 })

/-- Peer info of the PEEK witness: one committed message with two fds queued. -/
def c5PiW : PeerInfo :=
  { pool := { size := 4096, slices := [{ offset := 128, size := 64 }] },
    queue := [{ id := 1, slice := { offset := 128, size := 64 }, n_files := 2,
                committed := true }],
    queueFlushed := false, user := some 0 }

/-- The first queued message of the PEEK witness. -/
def c5MsgW : Message :=
  { id := 1, slice := { offset := 128, size := 64 }, n_files := 2, committed := true }

/-- RECV(PEEK) parameters of the PEEK witness, with cleared output fields. -/
def c5ParamW : RecvParam :=
  { flags := 1, msg_offset := BUS1_OFFSET_INVALID, msg_size := 0, msg_ids := 0, msg_fds := 0 }

/-- Peer info of the RESET witness. -/
def c6PiW : PeerInfo :=
  { pool := { size := 8192, slices := [{ offset := 0, size := 16 }] },
    queue := [{ id := 3, slice := { offset := 0, size := 16 }, n_files := 0,
                committed := true }],
    queueFlushed := false, user := some 1 }

/-- A NEW peer for the RESET witness. -/
def c6PeerNewW : Peer := { id := 1, active := ActiveState.stNew, info := none, names := [] }

/-- An activated peer for the RESET witness. -/
def c6PeerActW : Peer :=
  { id := 2, active := ActiveState.stActive, info := some c6PiW, names := [[120]] }

/-- Well-formed RESET parameters (no pool size, no trailing bytes). -/
def c6ParamZeroW : ConnectParam := { flags := 8, pool_size := 0, names := [] }

/-- RESET parameters carrying a nonzero pool size. -/
def c6ParamBadW : ConnectParam := { flags := 8, pool_size := 4096, names := [] }

/-- Peer info of the reset-trace witness: one committed and one staged node. -/
def c7PiW : PeerInfo :=
  { pool := { size := 4096, slices := [{ offset := 0, size := 8 }, { offset := 8, size := 8 }] },
    queue := [{ id := 1, slice := { offset := 0, size := 8 }, n_files := 0, committed := true },
              { id := 2, slice := { offset := 8, size := 8 }, n_files := 1, committed := false }],
    queueFlushed := false, user := some 0 }

/-- Environment of the send-fault witness: the very first destination-id read
faults; the transaction engine itself never fails. -/
def c8EnvW : SendEnv :=
  { ulongBits := 64, readDest := fun _ => none, newOk := Except.ok (),
    commitForId := fun _ => Except.ok (), instantiateForId := fun _ => Except.ok () }

/-- Parameters of the send-fault witness: a unicast send with IGNORE_UNKNOWN. -/
def c8ParamW : SendParam :=
  { flags := 1, n_vecs := 0, n_fds := 0, n_destinations := 1,
    ptr_destinations := 0, ptr_vecs := 0, ptr_ids := 0, ptr_fds := 0 }

/-- Peer info of the cleared-output witness. -/
def c10PiW : PeerInfo :=
  { pool := { size := 4096, slices := [] },
    queue := [{ id := 4, slice := { offset := 0, size := 32 }, n_files := 0,
                committed := true }],
    queueFlushed := false, user := some 0 }

/-- RECV parameters of the cleared-output witness: `msg_offset` was not set to
`BUS1_OFFSET_INVALID` by the caller. -/
def c10ParamW : RecvParam :=
  { flags := 0, msg_offset := 0, msg_size := 0, msg_ids := 0, msg_fds := 0 }

/-- Removing the first occurrence of an element skips any prefix that does not
contain it. -/
theorem eraseFirst_append_cons {α : Type} [DecidableEq α] (x : α) (A B : List α)
    (h : x ∉ A) : eraseFirst x (A ++ x :: B) = A ++ B := by
  induction A with
  | nil => simp [eraseFirst]
  | cons a t ih =>
    have h1 : ¬ a = x := fun e => h (by simp [e])
    have h2 : x ∉ t := fun m => h (List.mem_cons_of_mem _ m)
    simp [eraseFirst, h1, ih h2]

/-- Shape of the insertion loop's result: the final index is the linked
candidates (reversed, freshest first) on top of the initial index, the name
counter grew by their number, no linked name was present initially, and the
linked names are pairwise distinct. -/
theorem insertNames_spec (pid : Nat) (cands : List Name) : ∀ dom : Domain,
    (insertNames pid cands dom).1 =
      { map_names := ((insertNames pid cands dom).2.1.map (fun n => (n, pid))).reverse
                       ++ dom.map_names,
        n_names := dom.n_names + (insertNames pid cands dom).2.1.length,
        list_peers := dom.list_peers,
        n_peers := dom.n_peers }
    ∧ (∀ n ∈ (insertNames pid cands dom).2.1, ∀ e ∈ dom.map_names, e.1 ≠ n)
    ∧ (insertNames pid cands dom).2.1.Nodup := by
  induction cands with
  | nil =>
    intro dom
    refine ⟨?_, by simp [insertNames], by simp [insertNames]⟩
    simp [insertNames]
  | cons c rest ih =>
    intro dom
    by_cases hc : ∃ e ∈ dom.map_names, e.1 = c
    · refine ⟨?_, by simp [insertNames, bus1_peer_name_add, hc], ?_⟩
      · simp [insertNames, bus1_peer_name_add, hc]
      · simp [insertNames, bus1_peer_name_add, hc]
    · obtain ⟨ih1, ih2, ih3⟩ :=
        ih { dom with map_names := (c, pid) :: dom.map_names, n_names := dom.n_names + 1 }
      refine ⟨?_, ?_, ?_⟩
      · simp only [insertNames, bus1_peer_name_add, if_neg hc]
        rw [ih1]
        simp only [Domain.mk.injEq, List.map_cons, List.reverse_cons, List.append_assoc,
          List.singleton_append, List.length_cons]
        refine ⟨?_, ?_, ?_, ?_⟩ <;> first | trivial | omega
      · simp only [insertNames, bus1_peer_name_add, if_neg hc]
        intro n hn e he
        rcases List.mem_cons.mp hn with h | h
        · subst h
          push_neg at hc
          exact hc e he
        · exact ih2 n h e (List.mem_cons_of_mem _ he)
      · simp only [insertNames, bus1_peer_name_add, if_neg hc]
        refine List.nodup_cons.mpr ⟨?_, ih3⟩
        intro hmem
        exact ih2 c hmem (c, pid) (List.mem_cons_self _ _) rfl

/-- The insertion loop stops only with the collision error `-EISNAM`. -/
theorem insertNames_err (pid : Nat) (cands : List Name) : ∀ (dom : Domain) (e : Err),
    (insertNames pid cands dom).2.2 = some e → e = Err.NameExists := by
  induction cands with
  | nil => intro dom e h; simp [insertNames] at h
  | cons c rest ih =>
    intro dom e h
    by_cases hc : ∃ x ∈ dom.map_names, x.1 = c
    · simp [insertNames, bus1_peer_name_add, hc] at h
      exact h.symm
    · simp only [insertNames, bus1_peer_name_add, if_neg hc] at h
      exact ih _ e h

/-- One step of the unwind loop. -/
theorem removeNames_cons (pid : Nat) (c : Name) (t : List Name) (dom : Domain) :
    removeNames pid (c :: t) dom = removeNames pid t (bus1_peer_name_remove (c, pid) dom) :=
  rfl

/-- The unwind loop of `bus1_peer_connect_new` removes the linked candidate
entries and restores the initial domain exactly. -/
theorem removeNames_restore (pid : Nat) (linked : List Name) : ∀ dom : Domain,
    linked.Nodup →
    removeNames pid linked
      { map_names := (linked.map (fun n => (n, pid))).reverse ++ dom.map_names,
        n_names := dom.n_names + linked.length,
        list_peers := dom.list_peers, n_peers := dom.n_peers } = dom := by
  induction linked with
  | nil =>
    intro dom _
    simp [removeNames]
  | cons c t ih =>
    intro dom hnd
    have hcnott : c ∉ t := (List.nodup_cons.mp hnd).1
    have hnt : t.Nodup := (List.nodup_cons.mp hnd).2
    have hx : ((c, pid) : Name × Nat) ∉ (t.map (fun n => (n, pid))).reverse := by
      simpa using hcnott
    have hsplit : (((c :: t).map (fun n => (n, pid))).reverse ++ dom.map_names)
        = (t.map (fun n => (n, pid))).reverse ++ ((c, pid) :: dom.map_names) := by
      simp [List.append_assoc]
    have hrem : bus1_peer_name_remove (c, pid)
        { map_names := ((c :: t).map (fun n => (n, pid))).reverse ++ dom.map_names,
          n_names := dom.n_names + (c :: t).length,
          list_peers := dom.list_peers, n_peers := dom.n_peers }
        = { map_names := (t.map (fun n => (n, pid))).reverse ++ dom.map_names,
            n_names := dom.n_names + t.length,
            list_peers := dom.list_peers, n_peers := dom.n_peers } := by
      simp only [bus1_peer_name_remove, hsplit]
      rw [if_pos (by simp)]
      simp only [Domain.mk.injEq]
      refine ⟨eraseFirst_append_cons _ _ _ hx, by simp, trivial, trivial⟩
    rw [removeNames_cons, hrem]
    exact ih dom hnt

/-- C3: if inserting the candidate names of a CONNECT(PEER/MONITOR) into the
domain's name index hits a collision, the call returns NameExists (`-EISNAM`),
the candidates linked before the collision are removed again so that the index
and `n_names` are restored exactly, the NEW peer is left untouched (info null,
no names, not activated), and no candidate entry of this peer remains in the
index. -/
theorem c3_connect_collision_unwound (peer : Peer) (dom : Domain) (uid : Nat)
    (param : ConnectParam) (cands : List Name)
    (hnew : peer.active = ActiveState.stNew)
    (hinfo : peer.info = none)
    (hown : ∀ e ∈ dom.map_names, e.2 ≠ peer.id)
    (hpool0 : param.pool_size ≠ 0)
    (hpoolal : param.pool_size % PAGE_SIZE = 0)
    (hbuild : buildNames param.names [] = Except.ok cands)
    (hcoll : (insertNames peer.id cands dom).2.2.isSome = true) :
    bus1_peer_connect_new peer dom uid param = (Except.error Err.NameExists, peer, dom)
    ∧ ∀ n : Name, (n, peer.id) ∉ (bus1_peer_connect_new peer dom uid param).2.2.map_names := by
  obtain ⟨e, he⟩ := Option.isSome_iff_exists.mp hcoll
  have heis : e = Err.NameExists := insertNames_err peer.id cands dom e he
  subst heis
  have h1 : bus1_active_is_new peer.active = true := by
    simp [bus1_active_is_new, hnew]
  obtain ⟨hs1, _, hs3⟩ := insertNames_spec peer.id cands dom
  have hmain : bus1_peer_connect_new peer dom uid param
      = (Except.error Err.NameExists, peer, dom) := by
    simp only [bus1_peer_connect_new, h1, Bool.not_true, Bool.false_eq_true, if_false,
      hinfo, ne_eq, not_true_eq_false, bus1_peer_info_new,
      hpool0, hpoolal, or_self, if_neg, hbuild, he]
    rw [hs1, removeNames_restore peer.id (insertNames peer.id cands dom).2.1 dom hs3]
  refine ⟨hmain, ?_⟩
  intro n hn
  rw [hmain] at hn
  exact hown (n, peer.id) hn rfl

/-- C3 witness: a second peer claiming the already-taken name "dup" gets
`-EISNAM` and leaves the peer and the domain untouched. -/
theorem c3_connect_collision_unwound_witness :
    bus1_peer_connect_new c3PeerW c3DomW 0 c3ParamW
      = (Except.error Err.NameExists, c3PeerW, c3DomW)
    ∧ ∀ n : Name, (n, c3PeerW.id) ∉ (bus1_peer_connect_new c3PeerW c3DomW 0 c3ParamW).2.2.map_names :=
  c3_connect_collision_unwound c3PeerW c3DomW 0 c3ParamW [[100, 117, 112]]
    rfl rfl (by decide) (by decide) (by decide) rfl (by decide)

/-- C1: on a peer already connected with pool size 4096 and the name blob
"a\x00b\x00" (name list [b, a], head = last inserted), a CONNECT(PEER) with
the same pool size and name blob "a\x00a\x00" returns AlreadyConnected
(`-EISCONN`), although the supplied names [a, a] and the peer's names [b, a]
do not describe the same name set: `bus1_peer_names_check` accepts any blob
whose entries are all names of the peer, whose count matches the peer's name
count, and which mentions the peer's last listed name - duplicates slip
through, contradicting its own contract and the claimed RemoteChanged. -/
theorem c1_reconnect_name_check_divergence :
    (bus1_peer_connect_new
        { id := 5, active := ActiveState.stActive,
          info := some { pool := { size := 4096, slices := [] }, queue := [],
                         queueFlushed := false, user := some 0 },
          names := [[98], [97]] }
        { map_names := [([97], 5), ([98], 5)], n_names := 2, list_peers := [5], n_peers := 1 }
        0 { flags := 1, pool_size := 4096, names := [97, 0, 97, 0] }).1
      = Except.error Err.AlreadyConnected
    ∧ parseNames [97, 0, 97, 0] = Except.ok [[97], [97]]
    ∧ specNameSetEq [[97], [97]] [[98], [97]] = false :=
  ⟨rfl, rfl, rfl⟩

/-- C2: a RESOLVE of a name that is present in the domain's name index but
whose owner is DEACTIVATING (or DEAD) reports success and writes id 0,
instead of the claimed NotFound (`-ENXIO`): the index walk breaks out with
the tree node still non-null when the name matches, so the "not found, or
deactivated" branch is never reached for a found-but-inactive owner. -/
theorem c2_resolve_deactivated_divergence :
    bus1_peer_ioctl_resolve
        { map_names := [([120], 7)], n_names := 1, list_peers := [7], n_peers := 1 }
        (fun _ => ActiveState.stDeactivating)
        { flags := 0, id := 0, name := [120, 0] } = Except.ok 0
    ∧ bus1_peer_ioctl_resolve
        { map_names := [([120], 7)], n_names := 1, list_peers := [7], n_peers := 1 }
        (fun _ => ActiveState.stDead)
        { flags := 0, id := 0, name := [120, 0] } = Except.ok 0
    ∧ (Except.ok 0 : Except Err Nat) ≠ Except.error Err.NotFound :=
  ⟨rfl, rfl, by simp⟩

/-- Cleanup of the active-ref always lands in DEAD. -/
theorem bus1_active_cleanup_dead (a : ActiveState) :
    (bus1_active_cleanup a).1 = ActiveState.stDead := by
  by_cases h : a = ActiveState.stDead <;> simp [bus1_active_cleanup, h]

/-- The peer-cleanup callback does not touch the active-ref state. -/
theorem bus1_peer_cleanup_active (p : Peer) (d : Domain) :
    (bus1_peer_cleanup p d).1.active = p.active := by
  cases hi : p.info <;> simp [bus1_peer_cleanup, hi]

/-- After a teardown the peer's active-ref is DEAD. -/
theorem bus1_peer_teardown_active (p : Peer) (d : Domain) :
    ((bus1_peer_teardown p d).1).1.active = ActiveState.stDead := by
  simp only [bus1_peer_teardown]
  by_cases hc : (bus1_active_cleanup (bus1_active_deactivate p.active)).2 = true
  · simp [hc, bus1_peer_cleanup_active, bus1_active_cleanup_dead]
  · simp [hc, bus1_active_cleanup_dead]

/-- After a domain-assisted teardown the peer's active-ref is DEAD. -/
theorem bus1_peer_teardown_domain_active (p : Peer) (d : Domain) :
    ((bus1_peer_teardown_domain p d).1).active = ActiveState.stDead := by
  simp only [bus1_peer_teardown_domain]
  by_cases hc : (bus1_active_cleanup p.active).2 = true
  · simp [hc, bus1_peer_cleanup_active, bus1_active_cleanup_dead]
  · simp [hc, bus1_active_cleanup_dead]

/-- A teardown of a peer whose active-ref is already DEAD reports
`-ESHUTDOWN` and changes nothing. -/
theorem bus1_peer_teardown_of_dead (p : Peer) (d : Domain)
    (h : p.active = ActiveState.stDead) :
    bus1_peer_teardown p d = ((p, d), Except.error Err.AlreadyShutDown) := by
  have h1 : bus1_active_deactivate p.active = ActiveState.stDead := by
    simp [bus1_active_deactivate, h]
  have hp : { p with active := ActiveState.stDead } = p := by
    cases p
    simp_all
  simp only [bus1_peer_teardown, h1, bus1_active_cleanup]
  simp [hp]

/-- A domain-assisted teardown of a peer whose active-ref is already DEAD is
a no-op. -/
theorem bus1_peer_teardown_domain_of_dead (p : Peer) (d : Domain)
    (h : p.active = ActiveState.stDead) :
    bus1_peer_teardown_domain p d = (p, d) := by
  have hp : { p with active := ActiveState.stDead } = p := by
    cases p
    simp_all
  simp only [bus1_peer_teardown_domain, bus1_active_cleanup, h]
  simp [hp]

/-- On a DEAD peer neither teardown entry point changes state or fires a
cleanup. -/
theorem tdStep_of_dead (s : Peer × Domain) (op : TdOp)
    (h : s.1.active = ActiveState.stDead) : tdStep s op = (s, 0) := by
  cases op
  · simp [tdStep, bus1_peer_teardown_of_dead s.1 s.2 h]
  · simp [tdStep, bus1_peer_teardown_domain_of_dead s.1 s.2 h, bus1_active_cleanup, h]

/-- On a DEAD peer a whole sequence of teardown calls changes nothing and
fires no cleanup. -/
theorem tdRun_of_dead (s : Peer × Domain) (h : s.1.active = ActiveState.stDead) :
    ∀ ops : List TdOp, tdRun s ops = (s, 0) := by
  intro ops
  induction ops with
  | nil => rfl
  | cons op rest ih => simp [tdRun, tdStep_of_dead s op h, ih]

/-- Every teardown call leaves the peer's active-ref DEAD. -/
theorem tdStep_active_dead (s : Peer × Domain) (op : TdOp) :
    ((tdStep s op).1).1.active = ActiveState.stDead := by
  cases op
  · have hact := bus1_peer_teardown_active s.1 s.2
    simp only [tdStep]
    rcases hres : bus1_peer_teardown s.1 s.2 with ⟨s', r⟩
    rw [hres] at hact
    cases r <;> simpa using hact
  · simpa [tdStep] using bus1_peer_teardown_domain_active s.1 s.2

/-- A single teardown call fires at most one cleanup. -/
theorem tdStep_count_le (s : Peer × Domain) (op : TdOp) : (tdStep s op).2 ≤ 1 := by
  cases op
  · simp only [tdStep]
    rcases bus1_peer_teardown s.1 s.2 with ⟨s', r⟩
    cases r <;> simp
  · simp only [tdStep]
    split <;> simp

/-- C4: over any non-empty sequence of `bus1_peer_teardown` and
`bus1_peer_teardown_domain` calls the peer cleanup fires at most once; any
further teardown returns AlreadyShutDown (`-ESHUTDOWN`) without changing
state, and any further domain-assisted teardown is a no-op. -/
theorem c4_cleanup_once (s : Peer × Domain) (ops : List TdOp) (h : ops ≠ []) :
    (tdRun s ops).2 ≤ 1
    ∧ bus1_peer_teardown (tdRun s ops).1.1 (tdRun s ops).1.2
        = ((tdRun s ops).1, Except.error Err.AlreadyShutDown)
    ∧ bus1_peer_teardown_domain (tdRun s ops).1.1 (tdRun s ops).1.2 = (tdRun s ops).1 := by
  match ops, h with
  | op :: rest, _ =>
    have hstep : ((tdStep s op).1).1.active = ActiveState.stDead := tdStep_active_dead s op
    have hrest := tdRun_of_dead (tdStep s op).1 hstep rest
    have hrun : tdRun s (op :: rest) = ((tdStep s op).1, (tdStep s op).2) := by
      simp [tdRun, hrest]
    rw [hrun]
    exact ⟨tdStep_count_le s op,
           bus1_peer_teardown_of_dead _ _ hstep,
           bus1_peer_teardown_domain_of_dead _ _ hstep⟩

/-- C4 witness: one teardown of an activated peer, then the guarantees of
`c4_cleanup_once` at that concrete state. -/
theorem c4_cleanup_once_witness :
    (tdRun c4StateW [TdOp.td]).2 ≤ 1
    ∧ bus1_peer_teardown (tdRun c4StateW [TdOp.td]).1.1 (tdRun c4StateW [TdOp.td]).1.2
        = ((tdRun c4StateW [TdOp.td]).1, Except.error Err.AlreadyShutDown)
    ∧ bus1_peer_teardown_domain (tdRun c4StateW [TdOp.td]).1.1 (tdRun c4StateW [TdOp.td]).1.2
        = (tdRun c4StateW [TdOp.td]).1 :=
  c4_cleanup_once c4StateW [TdOp.td] (by simp)

/-- C5: a RECV with flag PEEK and a correctly pre-cleared parameter block
returns WouldBlock (`-EAGAIN`) on an empty queue; otherwise it publishes the
first queued message's slice (reporting its offset and size), reports the
message's attached-fd count, leaves the peer info (and thus the queue)
unchanged so a later RECV can still return the message, and installs no file
descriptors. -/
theorem c5_recv_peek (pi : PeerInfo) (param : RecvParam)
    (hflags : param.flags = BUS1_RECV_FLAG_PEEK)
    (hoff : param.msg_offset = BUS1_OFFSET_INVALID)
    (hsz : param.msg_size = 0) (hidsp : param.msg_ids = 0) (hfdsp : param.msg_fds = 0) :
    (pi.queue = [] → bus1_peer_ioctl_recv pi param = (Except.error Err.WouldBlock, pi))
    ∧ (∀ msg : Message, bus1_queue_peek pi.queue = some msg →
        bus1_peer_ioctl_recv pi param =
          (Except.ok { msg_offset := msg.slice.offset, msg_size := msg.slice.size,
                       msg_ids := 0, msg_fds := msg.n_files, installedFds := 0 }, pi)) := by
  have hfl : ¬ (2 ≤ param.flags) := by rw [hflags]; decide
  have hpre : ¬ (param.msg_offset ≠ BUS1_OFFSET_INVALID ∨ param.msg_size ≠ 0 ∨
      param.msg_ids ≠ 0 ∨ param.msg_fds ≠ 0) := by
    simp [hoff, hsz, hidsp, hfdsp]
  constructor
  · intro hq
    simp [bus1_peer_ioctl_recv, hfl, hpre, hq, bus1_queue_peek]
  · intro msg hm
    simp only [bus1_peer_ioctl_recv, if_neg hfl, if_neg hpre, hm]
    rw [hflags]
    simp [bus1_pool_publish, hidsp, BUS1_RECV_FLAG_PEEK]

/-- C5 witness: a PEEK on a queue holding one committed message with two
attached fds reports its offset, size and fd count, installs nothing and
leaves the info unchanged. -/
theorem c5_recv_peek_witness :
    bus1_peer_ioctl_recv c5PiW c5ParamW =
      (Except.ok { msg_offset := 128, msg_size := 64, msg_ids := 0, msg_fds := 2,
                   installedFds := 0 }, c5PiW) :=
  (c5_recv_peek c5PiW c5ParamW rfl rfl rfl rfl rfl).2 c5MsgW rfl

/-- C6: a CONNECT(RESET) returns NotConnected (`-ENOTCONN`) on a NEW peer;
otherwise InvalidArg (`-EINVAL`) when a nonzero pool size or trailing bytes
are supplied; otherwise it succeeds, reporting the peer's current pool size
and replacing the info by its flushed state. -/
theorem c6_connect_reset_cases (peer : Peer) (param : ConnectParam) (pi : PeerInfo) :
    (peer.active = ActiveState.stNew →
      bus1_peer_connect_reset peer param = (Except.error Err.NotConnected, peer))
    ∧ (peer.active ≠ ActiveState.stNew → (param.pool_size ≠ 0 ∨ param.names ≠ []) →
      bus1_peer_connect_reset peer param = (Except.error Err.InvalidArg, peer))
    ∧ (peer.active ≠ ActiveState.stNew → param.pool_size = 0 → param.names = [] →
      peer.info = some pi →
      bus1_peer_connect_reset peer param =
        (Except.ok pi.pool.size, { peer with info := some (bus1_peer_info_reset pi).1 })) := by
  refine ⟨?_, ?_, ?_⟩
  · intro h
    simp [bus1_peer_connect_reset, bus1_active_is_new, h]
  · intro h1 h2
    simp only [bus1_peer_connect_reset, bus1_active_is_new]
    rw [if_neg (by simp [h1]), if_pos h2]
  · intro h1 h2 h3 h4
    simp only [bus1_peer_connect_reset, bus1_active_is_new]
    rw [if_neg (by simp [h1]), if_neg (by simp [h2, h3]), h4]

/-- C6 witness: the three RESET cases at concrete inputs - a NEW peer, an
activated peer with a nonzero pool size, and an activated peer with a
well-formed RESET. -/
theorem c6_connect_reset_cases_witness :
    bus1_peer_connect_reset c6PeerNewW c6ParamZeroW = (Except.error Err.NotConnected, c6PeerNewW)
    ∧ bus1_peer_connect_reset c6PeerActW c6ParamBadW = (Except.error Err.InvalidArg, c6PeerActW)
    ∧ bus1_peer_connect_reset c6PeerActW c6ParamZeroW =
        (Except.ok c6PiW.pool.size,
         { c6PeerActW with info := some (bus1_peer_info_reset c6PiW).1 }) :=
  ⟨(c6_connect_reset_cases c6PeerNewW c6ParamZeroW c6PiW).1 rfl,
   (c6_connect_reset_cases c6PeerActW c6ParamBadW c6PiW).2.1 (by decide) (Or.inl (by decide)),
   (c6_connect_reset_cases c6PeerActW c6ParamZeroW c6PiW).2.2 (by decide) rfl rfl rfl⟩

/-- C10: a RECV whose parameter block does not have its output fields
pre-cleared (`msg_offset = BUS1_OFFSET_INVALID`, `msg_size = msg_ids =
msg_fds = 0`) returns InvalidArg (`-EINVAL`), dequeues nothing and leaves the
peer info unchanged. -/
theorem c10_recv_requires_cleared_output (pi : PeerInfo) (param : RecvParam)
    (h : param.msg_offset ≠ BUS1_OFFSET_INVALID ∨ param.msg_size ≠ 0 ∨
         param.msg_ids ≠ 0 ∨ param.msg_fds ≠ 0) :
    bus1_peer_ioctl_recv pi param = (Except.error Err.InvalidArg, pi) := by
  by_cases hf : 2 ≤ param.flags
  · simp [bus1_peer_ioctl_recv, hf]
  · simp only [bus1_peer_ioctl_recv, if_neg hf]
    rw [if_pos h]

/-- C10 witness: a RECV with `msg_offset = 0` instead of
`BUS1_OFFSET_INVALID` is rejected with `-EINVAL` and the queued message stays
queued. -/
theorem c10_recv_requires_cleared_output_witness :
    bus1_peer_ioctl_recv c10PiW c10ParamW = (Except.error Err.InvalidArg, c10PiW) :=
  c10_recv_requires_cleared_output c10PiW c10ParamW (Or.inl (by decide))

/-- Membership of a free event in the per-node events of the reset walk. -/
theorem mem_resetNodeEvents_free (m : Message) (i : Nat) :
    ResetEv.freeEv i ∈ resetNodeEvents m ↔ (m.committed = true ∧ m.id = i) := by
  cases hc : m.committed <;> simp [resetNodeEvents, hc, eq_comm]

/-- Membership of a deallocation event in the per-node events of the reset
walk. -/
theorem mem_resetNodeEvents_dealloc (m : Message) (i : Nat) :
    ResetEv.deallocEv i ∈ resetNodeEvents m ↔ (m.committed = true ∧ m.id = i) := by
  cases hc : m.committed <;> simp [resetNodeEvents, hc, eq_comm]

/-- Every node of the reset walk emits its unlink event. -/
theorem mem_resetNodeEvents_unlink (m : Message) :
    ResetEv.unlinkEv m.id ∈ resetNodeEvents m := by
  simp [resetNodeEvents]

/-- C7: `bus1_peer_info_reset` runs entirely under the info mutex (its trace
is one lock/unlock pair around the node walk followed by the queue post-flush
and then the pool flush, in that order); it emits a free (and deallocation)
exactly for the committed messages of the queue and only for those, unlinks
every node including the uncommitted staged ones, and leaves an empty,
flushed queue and an empty pool. -/
theorem c7_info_reset_trace (pi : PeerInfo) (hids : (pi.queue.map Message.id).Nodup) :
    (∀ m ∈ pi.queue,
        (ResetEv.freeEv m.id ∈ (bus1_peer_info_reset pi).2 ↔ m.committed = true)
        ∧ (ResetEv.deallocEv m.id ∈ (bus1_peer_info_reset pi).2 ↔ m.committed = true)
        ∧ ResetEv.unlinkEv m.id ∈ (bus1_peer_info_reset pi).2)
    ∧ (∀ i : Nat, ResetEv.freeEv i ∈ (bus1_peer_info_reset pi).2 →
        ∃ m, m ∈ pi.queue ∧ m.id = i ∧ m.committed = true)
    ∧ (∃ per : List ResetEv,
        (bus1_peer_info_reset pi).2
          = ResetEv.lockEv ::
              (per ++ [ResetEv.queuePostFlushEv, ResetEv.poolFlushEv, ResetEv.unlockEv])
        ∧ ∀ ev ∈ per, ev ≠ ResetEv.queuePostFlushEv ∧ ev ≠ ResetEv.poolFlushEv
            ∧ ev ≠ ResetEv.lockEv ∧ ev ≠ ResetEv.unlockEv)
    ∧ (bus1_peer_info_reset pi).1.queue = []
    ∧ (bus1_peer_info_reset pi).1.queueFlushed = true
    ∧ (bus1_peer_info_reset pi).1.pool.slices = [] := by
  have htr : (bus1_peer_info_reset pi).2
      = ResetEv.lockEv ::
          (pi.queue.flatMap resetNodeEvents ++
           [ResetEv.queuePostFlushEv, ResetEv.poolFlushEv, ResetEv.unlockEv]) := rfl
  have hmemfree : ∀ i : Nat,
      ResetEv.freeEv i ∈ pi.queue.flatMap resetNodeEvents ↔
        ∃ m, m ∈ pi.queue ∧ m.committed = true ∧ m.id = i := by
    intro i
    simp [List.mem_flatMap, mem_resetNodeEvents_free]
  have hmemdealloc : ∀ i : Nat,
      ResetEv.deallocEv i ∈ pi.queue.flatMap resetNodeEvents ↔
        ∃ m, m ∈ pi.queue ∧ m.committed = true ∧ m.id = i := by
    intro i
    simp [List.mem_flatMap, mem_resetNodeEvents_dealloc]
  refine ⟨?_, ?_, ?_, rfl, rfl, rfl⟩
  · intro m hm
    refine ⟨?_, ?_, ?_⟩
    · rw [htr]
      simp only [List.mem_cons, List.mem_append]
      constructor
      · intro hin
        rcases hin with h | h | h
        · exact absurd h (by simp)
        · obtain ⟨m', hm', hc', hid'⟩ := (hmemfree m.id).mp h
          have hmm : m' = m := List.inj_on_of_nodup_map hids hm' hm hid'
          rw [hmm] at hc'
          exact hc'
        · simp at h
      · intro hc
        exact Or.inr (Or.inl ((hmemfree m.id).mpr ⟨m, hm, hc, rfl⟩))
    · rw [htr]
      simp only [List.mem_cons, List.mem_append]
      constructor
      · intro hin
        rcases hin with h | h | h
        · exact absurd h (by simp)
        · obtain ⟨m', hm', hc', hid'⟩ := (hmemdealloc m.id).mp h
          have hmm : m' = m := List.inj_on_of_nodup_map hids hm' hm hid'
          rw [hmm] at hc'
          exact hc'
        · simp at h
      · intro hc
        exact Or.inr (Or.inl ((hmemdealloc m.id).mpr ⟨m, hm, hc, rfl⟩))
    · rw [htr]
      simp only [List.mem_cons, List.mem_append, List.mem_flatMap]
      exact Or.inr (Or.inl ⟨m, hm, mem_resetNodeEvents_unlink m⟩)
  · intro i hin
    rw [htr] at hin
    simp only [List.mem_cons, List.mem_append] at hin
    rcases hin with h | h | h
    · exact absurd h (by simp)
    · obtain ⟨m, hm, hc, hid⟩ := (hmemfree i).mp h
      exact ⟨m, hm, hid, hc⟩
    · simp at h
  · refine ⟨pi.queue.flatMap resetNodeEvents, htr, ?_⟩
    intro ev hev
    obtain ⟨m, hm, hev'⟩ := List.mem_flatMap.mp hev
    cases hcm : m.committed <;> simp [resetNodeEvents, hcm] at hev'
    · subst hev'
      exact ⟨by simp, by simp, by simp, by simp⟩
    · rcases hev' with h | h | h <;> subst h <;>
        exact ⟨by simp, by simp, by simp, by simp⟩

/-- C7 witness: the reset-trace guarantees at a queue holding one committed
and one staged message. -/
theorem c7_info_reset_trace_witness :
    (∀ m ∈ c7PiW.queue,
        (ResetEv.freeEv m.id ∈ (bus1_peer_info_reset c7PiW).2 ↔ m.committed = true)
        ∧ (ResetEv.deallocEv m.id ∈ (bus1_peer_info_reset c7PiW).2 ↔ m.committed = true)
        ∧ ResetEv.unlinkEv m.id ∈ (bus1_peer_info_reset c7PiW).2)
    ∧ (∀ i : Nat, ResetEv.freeEv i ∈ (bus1_peer_info_reset c7PiW).2 →
        ∃ m, m ∈ c7PiW.queue ∧ m.id = i ∧ m.committed = true)
    ∧ (∃ per : List ResetEv,
        (bus1_peer_info_reset c7PiW).2
          = ResetEv.lockEv ::
              (per ++ [ResetEv.queuePostFlushEv, ResetEv.poolFlushEv, ResetEv.unlockEv])
        ∧ ∀ ev ∈ per, ev ≠ ResetEv.queuePostFlushEv ∧ ev ≠ ResetEv.poolFlushEv
            ∧ ev ≠ ResetEv.lockEv ∧ ev ≠ ResetEv.unlockEv)
    ∧ (bus1_peer_info_reset c7PiW).1.queue = []
    ∧ (bus1_peer_info_reset c7PiW).1.queueFlushed = true
    ∧ (bus1_peer_info_reset c7PiW).1.pool.slices = [] :=
  c7_info_reset_trace c7PiW (by decide)

/-- A fault at position `i + t` of the multicast loop, with all earlier reads
and instantiations succeeding, makes the loop fail with `-EFAULT`, its trace
holding only instantiation events. -/
theorem sendMulticastLoop_fault (env : SendEnv) :
    ∀ (t i remaining : Nat), t < remaining → env.readDest (i + t) = none →
    (∀ u, u < t → ∃ d, env.readDest (i + u) = some d ∧
        env.instantiateForId d = Except.ok ()) →
    (sendMulticastLoop env i remaining).1 = Except.error Err.Fault
    ∧ ∀ ev ∈ (sendMulticastLoop env i remaining).2, ∃ d, ev = SendEv.instantiatedEv d := by
  intro t
  induction t with
  | zero =>
    intro i remaining hlt hnone _
    obtain ⟨r, rfl⟩ : ∃ r, remaining = r + 1 := ⟨remaining - 1, by omega⟩
    rw [Nat.add_zero] at hnone
    simp [sendMulticastLoop, hnone]
  | succ t' ih =>
    intro i remaining hlt hnone hpre
    obtain ⟨r, rfl⟩ : ∃ r, remaining = r + 1 := ⟨remaining - 1, by omega⟩
    obtain ⟨d, hd, hinst⟩ := hpre 0 (Nat.succ_pos t')
    rw [Nat.add_zero] at hd
    have hih := ih (i + 1) r (by omega)
      (by rw [show i + 1 + t' = i + (t' + 1) from by omega]; exact hnone)
      (by intro u hu
          obtain ⟨d', hd', hi'⟩ := hpre (u + 1) (by omega)
          exact ⟨d', by rw [show i + 1 + u = i + (u + 1) from by omega]; exact hd', hi'⟩)
    simp only [sendMulticastLoop, hd, hinst]
    refine ⟨hih.1, ?_⟩
    intro ev hev
    rcases List.mem_cons.mp hev with h | h
    · exact ⟨d, h⟩
    · exact hih.2 ev h

/-- C8: a fault while copying a destination id from user space - in the
unicast path or at any index `i` of the multicast path, whatever the flags
(including IGNORE_UNKNOWN) - makes the whole SEND fail with Fault
(`-EFAULT`); the transaction is freed and no commit event (neither
`commit_for_id` nor the multicast `commit`) happens. -/
theorem c8_send_fault_fatal (env : SendEnv) (param : SendParam) (i : Nat)
    (hflags : param.flags < 4)
    (hvec : param.n_vecs ≤ BUS1_VEC_MAX) (hfdl : param.n_fds ≤ BUS1_FD_MAX)
    (hp1 : truncOk env.ulongBits param.ptr_destinations = true)
    (hp2 : truncOk env.ulongBits param.ptr_vecs = true)
    (hp3 : truncOk env.ulongBits param.ptr_ids = true)
    (hp4 : truncOk env.ulongBits param.ptr_fds = true)
    (hnew : env.newOk = Except.ok ())
    (hi : i < param.n_destinations)
    (hpre : ∀ j, j < i → ∃ d, env.readDest j = some d ∧
        env.instantiateForId d = Except.ok ())
    (hfault : env.readDest i = none) :
    (bus1_peer_ioctl_send env param).1 = Except.error Err.Fault
    ∧ SendEv.freedEv ∈ (bus1_peer_ioctl_send env param).2
    ∧ ∀ ev ∈ (bus1_peer_ioctl_send env param).2, isCommitEv ev = false := by
  have h1 : ¬ (4 ≤ param.flags) := by omega
  have h2 : ¬ (BUS1_VEC_MAX < param.n_vecs ∨ BUS1_FD_MAX < param.n_fds) := by
    push_neg
    exact ⟨hvec, hfdl⟩
  have h3 : (truncOk env.ulongBits param.ptr_destinations &&
             truncOk env.ulongBits param.ptr_vecs &&
             truncOk env.ulongBits param.ptr_ids &&
             truncOk env.ulongBits param.ptr_fds) = true := by
    rw [hp1, hp2, hp3, hp4]
    rfl
  by_cases hone : param.n_destinations = 1
  · have hi0 : i = 0 := by omega
    subst hi0
    simp [bus1_peer_ioctl_send, h1, h2, h3, hnew, hone, hfault, isCommitEv]
  · obtain ⟨hL1, hL2⟩ := sendMulticastLoop_fault env i 0 param.n_destinations hi
      (by simpa using hfault)
      (by intro u hu
          simpa using hpre u hu)
    rcases hres : sendMulticastLoop env 0 param.n_destinations with ⟨res, tr⟩
    rw [hres] at hL1 hL2
    simp only at hL1
    subst hL1
    simp only [bus1_peer_ioctl_send, if_neg h1, if_neg h2, h3, hnew, if_neg hone, hres]
    refine ⟨rfl, by simp, ?_⟩
    intro ev hev
    rcases List.mem_append.mp hev with h | h
    · obtain ⟨d, rfl⟩ := hL2 ev h
      rfl
    · rw [List.mem_singleton.mp h]
      rfl

/-- C8 witness: a unicast SEND with IGNORE_UNKNOWN whose destination-id read
faults fails with `-EFAULT`, frees the transaction and commits nothing. -/
theorem c8_send_fault_fatal_witness :
    (bus1_peer_ioctl_send c8EnvW c8ParamW).1 = Except.error Err.Fault
    ∧ SendEv.freedEv ∈ (bus1_peer_ioctl_send c8EnvW c8ParamW).2
    ∧ ∀ ev ∈ (bus1_peer_ioctl_send c8EnvW c8ParamW).2, isCommitEv ev = false :=
  c8_send_fault_fatal c8EnvW c8ParamW 0 (by decide) (by decide) (by decide)
    (by decide) (by decide) (by decide) (by decide) rfl (by decide)
    (fun j hj => absurd hj (Nat.not_lt_zero j)) rfl

/-- C9 counterexample: a CONNECT carrying an unknown flag bit and no
capability returns `-EINVAL`, not the claimed NotPermitted (`-EPERM`) - the
flag validation runs before the capability check. -/
theorem c9_connect_cap_counterexample :
    (bus1_peer_ioctl_connect
        { id := 1, active := ActiveState.stNew, info := none, names := [] }
        { map_names := [], n_names := 0, list_peers := [], n_peers := 0 } false 0
        { flags := 16, pool_size := 0, names := [] }).1 = Except.error Err.InvalidArg
    ∧ Err.InvalidArg ≠ Err.NotPermitted :=
  ⟨rfl, by decide⟩

/-- C9 (amended): every CONNECT whose flags pass validation (no unknown bits,
at most one of PEER/MONITOR/RESET) fails with NotPermitted (`-EPERM`) when
the caller lacks CAP_SYS_ADMIN in the domain's user namespace - for every
mode, including a pure RESET or pure QUERY - and the peer and domain are left
unchanged. -/
theorem c9_connect_requires_cap (peer : Peer) (dom : Domain) (uid : Nat)
    (param : ConnectParam)
    (hknown : param.flags < 16) (hmode : connectModeCount param.flags ≤ 1) :
    bus1_peer_ioctl_connect peer dom false uid param
      = (Except.error Err.NotPermitted, peer, dom) := by
  have h1 : ¬ (16 ≤ param.flags) := by omega
  have h2 : ¬ (1 < connectModeCount param.flags) := by omega
  simp [bus1_peer_ioctl_connect, h1, h2]

/-- C9 witness: a pure QUERY without the capability is rejected with
`-EPERM` and nothing changes. -/
theorem c9_connect_requires_cap_witness :
    bus1_peer_ioctl_connect
        { id := 1, active := ActiveState.stNew, info := none, names := [] }
        { map_names := [], n_names := 0, list_peers := [], n_peers := 0 } false 0
        { flags := 4, pool_size := 0, names := [] }
      = (Except.error Err.NotPermitted,
         { id := 1, active := ActiveState.stNew, info := none, names := [] },
         { map_names := [], n_names := 0, list_peers := [], n_peers := 0 }) :=
  c9_connect_requires_cap
    { id := 1, active := ActiveState.stNew, info := none, names := [] }
    { map_names := [], n_names := 0, list_peers := [], n_peers := 0 } 0
    { flags := 4, pool_size := 0, names := [] } (by decide) (by decide)

end Bus1
